import Mathlib

/-!
Verification of the stellar-insights backend against its natural-language
specification.  The transport/bootstrap layer is embedded from
`src/backend/src/main.rs`; the Repository operations (which live in
`backend::database` / `backend::handlers`, outside the provided sources)
are modelled from the specification's own wording (§3, §4.1).
-/

namespace StellarInsights

/-! ## Transport layer: the axum router built in `main` -/

/-- HTTP method used when registering a route in `main.rs`. -/
inductive Method
  | GET
  | POST
  | PUT
  deriving DecidableEq, Repr

/-- One registered route: method, path template and handler name. -/
structure Route where
  method : Method
  path : String
  handler : String
  deriving DecidableEq, Repr

/-- The routes registered by `Router::new()` in `main.rs` (lines 50-64):
`/health`, `/api/anchors` (GET and POST), `/api/anchors/:id`,
`/api/anchors/account/:stellar_account`, `/api/anchors/:id/metrics` (PUT),
`/api/anchors/:id/assets` (GET and POST). -/
def appRoutes : List Route :=
  [ ⟨.GET,  "/health", "health_check"⟩,
    ⟨.GET,  "/api/anchors", "list_anchors"⟩,
    ⟨.POST, "/api/anchors", "create_anchor"⟩,
    ⟨.GET,  "/api/anchors/:id", "get_anchor"⟩,
    ⟨.GET,  "/api/anchors/account/:stellar_account", "get_anchor_by_account"⟩,
    ⟨.PUT,  "/api/anchors/:id/metrics", "update_anchor_metrics"⟩,
    ⟨.GET,  "/api/anchors/:id/assets", "get_anchor_assets"⟩,
    ⟨.POST, "/api/anchors/:id/assets", "create_anchor_asset"⟩ ]

/-- The interface table exactly as the specification (§6) lists it, with
`{x}` placeholders rendered in the router's `:x` syntax so that only the
path text itself is compared. -/
def specRoutes : List Route :=
  [ ⟨.GET,  "/health", "health_check"⟩,
    ⟨.GET,  "/anchors", "list_anchors"⟩,
    ⟨.POST, "/anchors", "create_anchor"⟩,
    ⟨.GET,  "/anchors/:id", "get_anchor"⟩,
    ⟨.GET,  "/anchors/account/:stellar_account", "get_anchor_by_account"⟩,
    ⟨.PUT,  "/anchors/:id/metrics", "update_anchor_metrics"⟩,
    ⟨.GET,  "/anchors/:id/assets", "get_anchor_assets"⟩,
    ⟨.POST, "/anchors/:id/assets", "create_anchor_asset"⟩ ]

/-! ## Bootstrap: the startup sequence of `main` -/

/-- The successive actions `main` performs at startup, in source order. -/
inductive StartupStep
  | loadDotenv
  | initTracing
  | connectDatabase
  | runMigrations
  | buildRouter
  | bindListener
  | serve
  deriving DecidableEq, Repr, Fintype

/-- The order in which `main` performs its startup actions: dotenv, tracing,
database connection, migrations, router construction, TCP bind, serve. -/
def mainSequence : List StartupStep :=
  [.loadDotenv, .initTracing, .connectDatabase, .runMigrations,
   .buildRouter, .bindListener, .serve]

/-- Execute a step list where each step may fail (the `?` operator in
`main`): a failing step aborts the whole sequence, so the trace records
every executed step and stops at the first failure. -/
def runSteps : List StartupStep → (StartupStep → Bool) → List StartupStep
  | [], _ => []
  | s :: rest, ok => if ok s then s :: runSteps rest ok else [s]

/-! ## Environment configuration read by `main` -/

/-- The database URL `main` uses: the `DATABASE_URL` environment variable,
or `"sqlite:stellar_insights.db"` when it is absent. -/
def databaseUrl (env : String → Option String) : String :=
  (env "DATABASE_URL").getD "sqlite:stellar_insights.db"

/-- The bind host `main` uses: `SERVER_HOST`, or `"127.0.0.1"` when absent. -/
def serverHost (env : String → Option String) : String :=
  (env "SERVER_HOST").getD "127.0.0.1"

/-- The bind port `main` uses: `SERVER_PORT`, or `"8080"` when absent. -/
def serverPort (env : String → Option String) : String :=
  (env "SERVER_PORT").getD "8080"

/-- Whether the SQLite connection options ask for the database file to be
created when missing: `main` calls `.create_if_missing(true)`. -/
def createIfMissing : Bool := true

/-! ## Repository data model (modelled from the spec, §3) -/

/-- Modelled from the spec: the `Anchor` row of §3 — system-generated
identifier, unique immutable external account reference, a free-form
profile field (`name`), numeric metric fields (`totalVolume`,
`trustScore`), creation timestamp and last-update timestamp.  The concrete
repository lives in `backend::database`, which is not among the provided
sources. -/
structure Anchor where
  id : Nat
  stellarAccount : String
  name : String
  totalVolume : Int
  trustScore : Int
  createdAt : Nat
  updatedAt : Nat
  deriving DecidableEq, Repr

/-- Modelled from the spec: the `Asset` row of §3 — system-generated
identifier, immutable owning anchor identifier, asset code/descriptor,
creation timestamp. -/
structure Asset where
  id : Nat
  anchorId : Nat
  code : String
  createdAt : Nat
  deriving DecidableEq, Repr

/-- Modelled from the spec: the persisted state — the two row-sets of §6
(anchors and assets, in creation order) plus the identifier generator. -/
structure Store where
  anchors : List Anchor
  assets : List Asset
  nextId : Nat
  deriving DecidableEq, Repr

/-- Modelled from the spec: the error taxonomy of §7. -/
inductive RepoError
  | invalidInput
  | notFound
  | conflict
  | storageUnavailable
  | invariantViolation
  deriving DecidableEq, Repr

/-- Modelled from the spec: caller input for `createAnchor` — the external
account reference plus the profile field. -/
structure CreateAnchorInput where
  stellarAccount : String
  name : String
  deriving DecidableEq, Repr

/-- Modelled from the spec (§9): the partial metrics payload, each metric
field present-or-absent so that "absent" and "set to zero" are
distinguishable. -/
structure MetricsPayload where
  totalVolume : Option Int
  trustScore : Option Int
  deriving DecidableEq, Repr

/-- Modelled from the spec: caller input for `createAsset` — the asset
code/descriptor. -/
structure CreateAssetInput where
  code : String
  deriving DecidableEq, Repr

/-! ## Repository operations (modelled from the spec, §4.1) -/

/-- Modelled from the spec: a supplied metric value passes the basic sanity
check of §4.1 when it is non-negative; an absent field always passes. -/
def validMetric : Option Int → Bool
  | none => true
  | some v => decide (0 ≤ v)

/-- Modelled from the spec: a metrics payload is valid when every supplied
field passes the sanity check. -/
def validMetrics (p : MetricsPayload) : Bool :=
  validMetric p.totalVolume && validMetric p.trustScore

/-- Modelled from the spec: merge only the supplied metric fields of `p`
into anchor `a`, leave all other fields untouched, refresh the last-update
timestamp to `now`. -/
def applyMetrics (a : Anchor) (p : MetricsPayload) (now : Nat) : Anchor :=
  { a with
    totalVolume := p.totalVolume.getD a.totalVolume,
    trustScore := p.trustScore.getD a.trustScore,
    updatedAt := now }

/-- Modelled from the spec: find the anchor with the given identifier. -/
def findAnchor : List Anchor → Nat → Option Anchor
  | [], _ => none
  | a :: rest, i => if a.id = i then some a else findAnchor rest i

/-- Modelled from the spec: update the (unique) row whose identifier
matches, returning the updated anchor and the updated row-set, or `none`
when the identifier is absent. -/
def updateInList (l : List Anchor) (i : Nat) (p : MetricsPayload) (now : Nat) :
    Option (Anchor × List Anchor) :=
  match l with
  | [] => none
  | a :: rest =>
    if a.id = i then some (applyMetrics a p now, applyMetrics a p now :: rest)
    else
      match updateInList rest i p now with
      | none => none
      | some (a', rest') => some (a', a :: rest')

/-- Modelled from the spec: `createAnchor` (§4.1) — account reference must
be non-empty (`InvalidInput` otherwise) and not already present
(`Conflict` otherwise); on success a new row with a generated identifier
and both timestamps set to `now` is appended, atomically with the
uniqueness check.  Every operation returns its outcome together with the
resulting store; on error the store is returned unchanged. -/
def createAnchor (s : Store) (now : Nat) (inp : CreateAnchorInput) :
    Except RepoError Anchor × Store :=
  if inp.stellarAccount = "" then (.error .invalidInput, s)
  else if s.anchors.any (fun a => a.stellarAccount == inp.stellarAccount) then
    (.error .conflict, s)
  else
    let a : Anchor :=
      { id := s.nextId, stellarAccount := inp.stellarAccount, name := inp.name,
        totalVolume := 0, trustScore := 0, createdAt := now, updatedAt := now }
    (.ok a, { s with anchors := s.anchors ++ [a], nextId := s.nextId + 1 })

/-- Modelled from the spec: `getAnchorById` (§4.1) — the anchor or
`NotFound`. -/
def getAnchorById (s : Store) (i : Nat) : Except RepoError Anchor :=
  match findAnchor s.anchors i with
  | some a => .ok a
  | none => .error .notFound

/-- Modelled from the spec: `getAnchorByAccount` (§4.1) — the anchor or
`NotFound`; duplicates are a data-integrity fault (`InvariantViolation`),
not a normal miss. -/
def getAnchorByAccount (s : Store) (ref : String) : Except RepoError Anchor :=
  match s.anchors.filter (fun a => a.stellarAccount == ref) with
  | [] => .error .notFound
  | [a] => .ok a
  | _ :: _ :: _ => .error .invariantViolation

/-- Modelled from the spec: `updateAnchorMetrics` (§4.1) — `InvalidInput`
when a supplied metric fails the sanity check, `NotFound` when the
identifier is absent, otherwise merge only the supplied fields and refresh
the last-update timestamp. -/
def updateAnchorMetrics (s : Store) (now : Nat) (i : Nat) (p : MetricsPayload) :
    Except RepoError Anchor × Store :=
  if validMetrics p = false then (.error .invalidInput, s)
  else
    match updateInList s.anchors i p now with
    | none => (.error .notFound, s)
    | some (a', anchors') => (.ok a', { s with anchors := anchors' })

/-- Modelled from the spec: `createAsset` (§4.1) — validates that the
anchor identifier references an existing anchor (`NotFound` otherwise) and
that the descriptor is non-empty (`InvalidInput` otherwise); on success a
new asset row is appended. -/
def createAsset (s : Store) (now : Nat) (anchorId : Nat) (inp : CreateAssetInput) :
    Except RepoError Asset × Store :=
  if (s.anchors.any (fun a => a.id == anchorId)) = false then (.error .notFound, s)
  else if inp.code = "" then (.error .invalidInput, s)
  else
    let x : Asset := { id := s.nextId, anchorId := anchorId, code := inp.code, createdAt := now }
    (.ok x, { s with assets := s.assets ++ [x], nextId := s.nextId + 1 })

/-- Modelled from the spec: `listAssetsForAnchor` (§4.1) — the ordered
sequence of assets owned by the anchor (empty, not an error, when it owns
none); `NotFound` when the anchor itself does not exist. -/
def listAssetsForAnchor (s : Store) (anchorId : Nat) : Except RepoError (List Asset) :=
  if s.anchors.any (fun a => a.id == anchorId) then
    .ok (s.assets.filter (fun x => x.anchorId == anchorId))
  else .error .notFound

/-- An anchor with its last-update timestamp blanked, for statements that
compare states "aside from the last-update timestamp". -/
def eraseTs (a : Anchor) : Anchor := { a with updatedAt := 0 }

/-! ## Concrete values used by the witness theorems -/

/-- A concrete stored anchor used by witnesses. -/
def anchorA : Anchor :=
  { id := 1, stellarAccount := "GABC", name := "Acme Anchor",
    totalVolume := 0, trustScore := 0, createdAt := 5, updatedAt := 5 }

/-- A concrete one-anchor store used by witnesses. -/
def store1 : Store := { anchors := [anchorA], assets := [], nextId := 2 }

/-- `anchorA` after merging a payload supplying only `totalVolume := 7`
at time 9. -/
def anchorA7 : Anchor :=
  { id := 1, stellarAccount := "GABC", name := "Acme Anchor",
    totalVolume := 7, trustScore := 0, createdAt := 5, updatedAt := 9 }

/-- `store1` after that metrics update. -/
def store1upd : Store := { anchors := [anchorA7], assets := [], nextId := 2 }

/-! ## Helper lemmas about the modelled repository -/

theorem applyMetrics_id (a : Anchor) (p : MetricsPayload) (t : Nat) :
    (applyMetrics a p t).id = a.id := rfl

theorem applyMetrics_applyMetrics (a : Anchor) (p : MetricsPayload) (t1 t2 : Nat) :
    applyMetrics (applyMetrics a p t1) p t2 = applyMetrics a p t2 := by
  obtain ⟨tv, ts⟩ := p
  cases tv <;> cases ts <;> rfl

theorem eraseTs_applyMetrics_time (a : Anchor) (p : MetricsPayload) (t1 t2 : Nat) :
    eraseTs (applyMetrics a p t1) = eraseTs (applyMetrics a p t2) := rfl

theorem updateInList_some (l : List Anchor) (i : Nat) (p : MetricsPayload) (now : Nat) :
    ∀ a' l', updateInList l i p now = some (a', l') →
      ∃ a, findAnchor l i = some a ∧ a' = applyMetrics a p now := by
  induction l with
  | nil => intro a' l' h; simp [updateInList] at h
  | cons b rest ih =>
    intro a' l' h
    by_cases hb : b.id = i
    · refine ⟨b, by simp [findAnchor, hb], ?_⟩
      simp only [updateInList, if_pos hb, Option.some.injEq, Prod.mk.injEq] at h
      exact h.1.symm
    · simp only [updateInList, if_neg hb] at h
      cases hrest : updateInList rest i p now with
      | none => rw [hrest] at h; simp at h
      | some pr =>
        obtain ⟨a'', rest'⟩ := pr
        rw [hrest] at h
        simp only [Option.some.injEq, Prod.mk.injEq] at h
        obtain ⟨a, hfind, heq⟩ := ih a'' rest' hrest
        exact ⟨a, by simp [findAnchor, hb, hfind], h.1 ▸ heq⟩

theorem updateInList_twice (l : List Anchor) (i : Nat) (p : MetricsPayload) (t1 t2 : Nat) :
    ∀ a' l', updateInList l i p t1 = some (a', l') →
      ∃ l'', updateInList l' i p t2 = some (applyMetrics a' p t2, l'') ∧
        eraseTs (applyMetrics a' p t2) = eraseTs a' ∧
        l''.map eraseTs = l'.map eraseTs := by
  induction l with
  | nil => intro a' l' h; simp [updateInList] at h
  | cons b rest ih =>
    intro a' l' h
    by_cases hb : b.id = i
    · simp only [updateInList, if_pos hb, Option.some.injEq, Prod.mk.injEq] at h
      obtain ⟨ha, hl⟩ := h
      subst ha
      subst hl
      have hid : (applyMetrics b p t1).id = i := by rw [applyMetrics_id]; exact hb
      have hkey : eraseTs (applyMetrics (applyMetrics b p t1) p t2) =
          eraseTs (applyMetrics b p t1) := by
        rw [applyMetrics_applyMetrics]
        exact eraseTs_applyMetrics_time b p t2 t1
      refine ⟨applyMetrics (applyMetrics b p t1) p t2 :: rest, ?_, hkey, ?_⟩
      · simp [updateInList, hid]
      · simp [hkey]
    · simp only [updateInList, if_neg hb] at h
      cases hrest : updateInList rest i p t1 with
      | none => rw [hrest] at h; simp at h
      | some pr =>
        obtain ⟨a'', rest'⟩ := pr
        rw [hrest] at h
        simp only [Option.some.injEq, Prod.mk.injEq] at h
        obtain ⟨ha, hl⟩ := h
        subst ha
        subst hl
        obtain ⟨l''r, h2, he, hm⟩ := ih a'' rest' hrest
        refine ⟨b :: l''r, ?_, he, ?_⟩
        · simp [updateInList, hb, h2]
        · simp [hm]

theorem createAnchor_conflict_of_mem (s : Store) (now : Nat) (inp : CreateAnchorInput)
    (a : Anchor) (ha : a ∈ s.anchors) (href : a.stellarAccount = inp.stellarAccount)
    (hne : inp.stellarAccount ≠ "") :
    createAnchor s now inp = (.error .conflict, s) := by
  unfold createAnchor
  rw [if_neg hne, if_pos]
  exact List.any_eq_true.mpr ⟨a, ha, by simp [href]⟩

theorem createAnchor_fresh_ok (s : Store) (now : Nat) (inp : CreateAnchorInput)
    (hne : inp.stellarAccount ≠ "")
    (hfresh : ∀ a ∈ s.anchors, a.stellarAccount ≠ inp.stellarAccount) :
    createAnchor s now inp =
      (.ok { id := s.nextId, stellarAccount := inp.stellarAccount, name := inp.name,
             totalVolume := 0, trustScore := 0, createdAt := now, updatedAt := now },
       { s with
         anchors := s.anchors ++
           [{ id := s.nextId, stellarAccount := inp.stellarAccount, name := inp.name,
              totalVolume := 0, trustScore := 0, createdAt := now, updatedAt := now }],
         nextId := s.nextId + 1 }) := by
  unfold createAnchor
  rw [if_neg hne, if_neg]
  intro hany
  obtain ⟨a, ha, hp⟩ := List.any_eq_true.mp hany
  exact hfresh a ha (by simpa using hp)

/-! ## Theorems: transport layer (C1) -/

/-- C1 counterexample: the specification's interface table lists the
create-anchor operation (POST) at `/anchors`, but the router of `main.rs`
registers no handler at path `/anchors` at all — every anchor route is
registered under the `/api` prefix. -/
theorem create_anchor_route_not_at_spec_path :
    (∃ r ∈ specRoutes, r.method = .POST ∧ r.path = "/anchors") ∧
    ¬ ∃ r ∈ appRoutes, r.path = "/anchors" := by
  decide

/-- C1 (amended): the transport layer registers exactly one handler per
operation of the spec's interface table, with the listed method, at the
listed path prefixed by `/api` — except `/health`, which is registered at
its listed path unchanged. -/
theorem routes_match_spec_with_api_prefix :
    appRoutes = specRoutes.map
      (fun r => if r.path = "/health" then r else { r with path := "/api" ++ r.path }) := by
  decide

/-! ## Theorems: startup sequence (C9) -/

set_option maxRecDepth 8000

/-- C9: in every startup execution of `main` (each fallible step may
succeed or abort the process), whenever the serve step is reached, the
whole startup sequence ran, database migrations were executed exactly
once, and they completed at a strictly earlier position than serving:
no request is served before migrations have run. -/
theorem migrations_run_once_before_serve :
    ∀ ok : StartupStep → Bool, StartupStep.serve ∈ runSteps mainSequence ok →
      runSteps mainSequence ok = mainSequence ∧
      (runSteps mainSequence ok).count .runMigrations = 1 ∧
      (runSteps mainSequence ok).indexOf .runMigrations <
        (runSteps mainSequence ok).indexOf .serve := by
  decide

/-- Witness for C9: the all-success execution reaches the serve step. -/
theorem migrations_run_once_before_serve_witness :
    StartupStep.serve ∈ runSteps mainSequence (fun _ => true) ∧
    runSteps mainSequence (fun _ => true) = mainSequence :=
  ⟨by decide, (migrations_run_once_before_serve (fun _ => true) (by decide)).1⟩

/-! ## Theorems: environment configuration (C10) -/

/-- C10: for every environment, each configuration variable falls back to
its default when absent (`DATABASE_URL` → `"sqlite:stellar_insights.db"`,
`SERVER_HOST` → `"127.0.0.1"`, `SERVER_PORT` → `"8080"`), is used exactly
when set, and the SQLite options ask for the database file to be created
when missing. -/
theorem env_defaults (env : String → Option String) :
    (env "DATABASE_URL" = none → databaseUrl env = "sqlite:stellar_insights.db") ∧
    (∀ v, env "DATABASE_URL" = some v → databaseUrl env = v) ∧
    (env "SERVER_HOST" = none → serverHost env = "127.0.0.1") ∧
    (∀ v, env "SERVER_HOST" = some v → serverHost env = v) ∧
    (env "SERVER_PORT" = none → serverPort env = "8080") ∧
    (∀ v, env "SERVER_PORT" = some v → serverPort env = v) ∧
    createIfMissing = true := by
  refine ⟨fun h => ?_, fun v h => ?_, fun h => ?_, fun v h => ?_,
    fun h => ?_, fun v h => ?_, rfl⟩ <;>
    simp [databaseUrl, serverHost, serverPort, h]

/-- Witness for C10: an empty environment yields all three defaults, and a
set variable is used exactly. -/
theorem env_defaults_witness :
    databaseUrl (fun _ => none) = "sqlite:stellar_insights.db" ∧
    serverHost (fun _ => none) = "127.0.0.1" ∧
    serverPort (fun _ => none) = "8080" ∧
    databaseUrl (fun _ => some "sqlite:other.db") = "sqlite:other.db" :=
  ⟨(env_defaults (fun _ => none)).1 rfl,
   (env_defaults (fun _ => none)).2.2.1 rfl,
   (env_defaults (fun _ => none)).2.2.2.2.1 rfl,
   (env_defaults (fun _ => some "sqlite:other.db")).2.1 "sqlite:other.db" rfl⟩

/-! ## Theorems: metrics update (C2, C3) -/

/-- C2: a successful `updateAnchorMetrics` leaves every field absent from
the payload unchanged on the stored anchor — identifier, account
reference, profile field, creation timestamp, and any metric field the
payload does not supply — refreshing only the supplied metrics and the
last-update timestamp; the asset row-set and the identifier generator are
also untouched. -/
theorem update_metrics_frame (s : Store) (now i : Nat) (p : MetricsPayload)
    (a a' : Anchor) (s' : Store)
    (hget : getAnchorById s i = .ok a)
    (h : updateAnchorMetrics s now i p = (.ok a', s')) :
    a'.id = a.id ∧ a'.stellarAccount = a.stellarAccount ∧ a'.name = a.name ∧
    a'.createdAt = a.createdAt ∧
    (p.totalVolume = none → a'.totalVolume = a.totalVolume) ∧
    (p.trustScore = none → a'.trustScore = a.trustScore) ∧
    a'.updatedAt = now ∧ s'.assets = s.assets ∧ s'.nextId = s.nextId := by
  unfold updateAnchorMetrics at h
  cases hv : validMetrics p with
  | false => rw [hv] at h; simp at h
  | true =>
    rw [hv] at h
    simp only [Bool.true_eq_false, if_false] at h
    cases hu : updateInList s.anchors i p now with
    | none => rw [hu] at h; simp at h
    | some pr =>
      obtain ⟨au, anchors'⟩ := pr
      rw [hu] at h
      simp only [Prod.mk.injEq, Except.ok.injEq] at h
      obtain ⟨hau, hs⟩ := h
      subst hau
      obtain ⟨a0, hfind, heq⟩ := updateInList_some s.anchors i p now au anchors' hu
      have ha0 : a0 = a := by
        unfold getAnchorById at hget
        rw [hfind] at hget
        simpa using hget
      subst ha0
      subst heq
      refine ⟨rfl, rfl, rfl, rfl, ?_, ?_, rfl, ?_, ?_⟩
      · intro htv; simp [applyMetrics, htv]
      · intro hts; simp [applyMetrics, hts]
      · rw [← hs]
      · rw [← hs]

/-- Witness for C2: in a one-anchor store, updating only `totalVolume`
leaves the name, account reference, creation timestamp and `trustScore`
unchanged. -/
theorem update_metrics_frame_witness :
    anchorA7.id = anchorA.id ∧ anchorA7.stellarAccount = anchorA.stellarAccount ∧
    anchorA7.name = anchorA.name ∧ anchorA7.createdAt = anchorA.createdAt ∧
    ((MetricsPayload.mk (some 7) none).totalVolume = none →
      anchorA7.totalVolume = anchorA.totalVolume) ∧
    ((MetricsPayload.mk (some 7) none).trustScore = none →
      anchorA7.trustScore = anchorA.trustScore) ∧
    anchorA7.updatedAt = 9 ∧ store1upd.assets = store1.assets ∧
    store1upd.nextId = store1.nextId :=
  update_metrics_frame store1 9 1 ⟨some 7, none⟩ anchorA anchorA7 store1upd rfl rfl

/-- C3: `updateAnchorMetrics` is idempotent — after one successful
application, re-applying the same payload succeeds and produces the same
stored state, anchor for anchor, except possibly the last-update
timestamp. -/
theorem update_metrics_idempotent (s : Store) (t1 t2 i : Nat) (p : MetricsPayload)
    (a1 : Anchor) (s1 : Store)
    (h : updateAnchorMetrics s t1 i p = (.ok a1, s1)) :
    ∃ a2 s2, updateAnchorMetrics s1 t2 i p = (.ok a2, s2) ∧
      eraseTs a2 = eraseTs a1 ∧
      s2.anchors.map eraseTs = s1.anchors.map eraseTs ∧
      s2.assets = s1.assets ∧ s2.nextId = s1.nextId := by
  unfold updateAnchorMetrics at h ⊢
  cases hv : validMetrics p with
  | false => rw [hv] at h; simp at h
  | true =>
    rw [hv] at h
    simp only [Bool.true_eq_false, if_false] at h ⊢
    cases hu : updateInList s.anchors i p t1 with
    | none => rw [hu] at h; simp at h
    | some pr =>
      obtain ⟨a', anchors'⟩ := pr
      rw [hu] at h
      simp only [Prod.mk.injEq, Except.ok.injEq] at h
      obtain ⟨ha, hs⟩ := h
      subst ha
      obtain ⟨l'', h2, he, hm⟩ := updateInList_twice s.anchors i p t1 t2 a' anchors' hu
      have hanch : s1.anchors = anchors' := by rw [← hs]
      rw [hanch, h2]
      refine ⟨applyMetrics a' p t2, { s1 with anchors := l'' }, ?_, he, ?_, rfl, rfl⟩
      · subst hs; rfl
      · simpa [hanch] using hm

/-- Witness for C3: re-applying the payload `totalVolume := 7` to the
already-updated one-anchor store changes nothing but the timestamp. -/
theorem update_metrics_idempotent_witness :
    ∃ a2 s2, updateAnchorMetrics store1upd 11 1 ⟨some 7, none⟩ = (.ok a2, s2) ∧
      eraseTs a2 = eraseTs anchorA7 ∧
      s2.anchors.map eraseTs = store1upd.anchors.map eraseTs ∧
      s2.assets = store1upd.assets ∧ s2.nextId = store1upd.nextId :=
  update_metrics_idempotent store1 9 11 1 ⟨some 7, none⟩ anchorA7 store1upd rfl

/-! ## Theorems: anchor creation (C4, C5, C6) -/

/-- C4: when an anchor with the requested (non-empty) account reference
already exists, `createAnchor` returns the `Conflict` error and the store
is unchanged — no second row with that reference is created. -/
theorem create_anchor_conflict (s : Store) (now : Nat) (inp : CreateAnchorInput)
    (a : Anchor) (ha : a ∈ s.anchors) (href : a.stellarAccount = inp.stellarAccount)
    (hne : inp.stellarAccount ≠ "") :
    createAnchor s now inp = (.error .conflict, s) :=
  createAnchor_conflict_of_mem s now inp a ha href hne

/-- Witness for C4: re-creating the stored anchor's account reference
yields `Conflict` and leaves the store untouched. -/
theorem create_anchor_conflict_witness :
    createAnchor store1 7 ⟨"GABC", "Other"⟩ = (.error .conflict, store1) :=
  create_anchor_conflict store1 7 ⟨"GABC", "Other"⟩ anchorA (by decide) rfl (by decide)

/-- C5: for two `createAnchor` calls sharing a fresh account reference —
each call atomic per §4.1, so a concurrent pair serializes to one of the
two orders, both instances of this statement — the first succeeds, the
second returns `Conflict` without changing the store, and exactly one row
with that reference exists afterwards. -/
theorem concurrent_creates_one_success (s : Store) (t1 t2 : Nat)
    (i1 i2 : CreateAnchorInput) (r : String)
    (h1 : i1.stellarAccount = r) (h2 : i2.stellarAccount = r) (hr : r ≠ "")
    (hfresh : ∀ a ∈ s.anchors, a.stellarAccount ≠ r) :
    ∃ a1 s1, createAnchor s t1 i1 = (.ok a1, s1) ∧
      createAnchor s1 t2 i2 = (.error .conflict, s1) ∧
      (s1.anchors.filter (fun a => a.stellarAccount == r)).length = 1 := by
  have hne1 : i1.stellarAccount ≠ "" := by rw [h1]; exact hr
  have hfresh1 : ∀ a ∈ s.anchors, a.stellarAccount ≠ i1.stellarAccount := by
    rw [h1]; exact hfresh
  set anew : Anchor :=
    { id := s.nextId, stellarAccount := i1.stellarAccount, name := i1.name,
      totalVolume := 0, trustScore := 0, createdAt := t1, updatedAt := t1 } with hanew
  refine ⟨anew, { s with anchors := s.anchors ++ [anew], nextId := s.nextId + 1 },
    createAnchor_fresh_ok s t1 i1 hne1 hfresh1, ?_, ?_⟩
  · refine createAnchor_conflict_of_mem _ t2 i2 anew ?_ ?_ ?_
    · simp
    · rw [hanew]; rw [h1, h2]
    · rw [h2]; exact hr
  · have hnil : s.anchors.filter (fun a => a.stellarAccount == r) = [] := by
      rw [List.filter_eq_nil_iff]
      intro a ha
      simp [hfresh a ha]
    simp only [List.filter_append, hnil, List.nil_append]
    simp [hanew, h1]

/-- Witness for C5: two creations with reference `"GX"` on the empty
store — the first wins, the second observes `Conflict`, one row remains. -/
theorem concurrent_creates_one_success_witness :
    ∃ a1 s1, createAnchor ⟨[], [], 0⟩ 1 ⟨"GX", "A"⟩ = (.ok a1, s1) ∧
      createAnchor s1 2 ⟨"GX", "B"⟩ = (.error .conflict, s1) ∧
      (s1.anchors.filter (fun a => a.stellarAccount == "GX")).length = 1 :=
  concurrent_creates_one_success ⟨[], [], 0⟩ 1 2 ⟨"GX", "A"⟩ ⟨"GX", "B"⟩ "GX"
    rfl rfl (by decide) (by intro a ha; simp at ha)

/-- C6: creating an anchor with a valid input and a fresh account
reference succeeds, and `getAnchorByAccount` with that reference on the
resulting store returns an anchor whose fields match the created one. -/
theorem create_then_get_by_account (s : Store) (now : Nat) (inp : CreateAnchorInput)
    (hne : inp.stellarAccount ≠ "")
    (hfresh : ∀ a ∈ s.anchors, a.stellarAccount ≠ inp.stellarAccount) :
    ∃ a s', createAnchor s now inp = (.ok a, s') ∧
      getAnchorByAccount s' inp.stellarAccount = .ok a ∧
      a.stellarAccount = inp.stellarAccount ∧ a.name = inp.name ∧
      a.createdAt = now ∧ a.updatedAt = now ∧ a.id = s.nextId := by
  set anew : Anchor :=
    { id := s.nextId, stellarAccount := inp.stellarAccount, name := inp.name,
      totalVolume := 0, trustScore := 0, createdAt := now, updatedAt := now } with hanew
  refine ⟨anew, { s with anchors := s.anchors ++ [anew], nextId := s.nextId + 1 },
    createAnchor_fresh_ok s now inp hne hfresh, ?_, rfl, rfl, rfl, rfl, rfl⟩
  have hnil : s.anchors.filter (fun a => a.stellarAccount == inp.stellarAccount) = [] := by
    rw [List.filter_eq_nil_iff]
    intro a ha
    simp [hfresh a ha]
  unfold getAnchorByAccount
  simp only [List.filter_append, hnil, List.nil_append]
  simp [hanew]

/-- Witness for C6: creating `"GABC"`/`"Acme Anchor"` on the empty store
succeeds and the anchor is then found by its account reference. -/
theorem create_then_get_by_account_witness :
    ∃ a s', createAnchor ⟨[], [], 0⟩ 5 ⟨"GABC", "Acme Anchor"⟩ = (.ok a, s') ∧
      getAnchorByAccount s' "GABC" = .ok a ∧
      a.stellarAccount = "GABC" ∧ a.name = "Acme Anchor" ∧
      a.createdAt = 5 ∧ a.updatedAt = 5 ∧ a.id = 0 :=
  create_then_get_by_account ⟨[], [], 0⟩ 5 ⟨"GABC", "Acme Anchor"⟩ (by decide)
    (by intro a ha; simp at ha)

/-! ## Theorems: assets (C7, C8) -/

/-- C7: `createAsset` against an anchor identifier absent from the store
returns `NotFound` and leaves the store — in particular the stored asset
set — unchanged: no row is created. -/
theorem create_asset_not_found (s : Store) (now anchorId : Nat) (inp : CreateAssetInput)
    (h : ∀ a ∈ s.anchors, a.id ≠ anchorId) :
    createAsset s now anchorId inp = (.error .notFound, s) := by
  unfold createAsset
  rw [if_pos]
  have : s.anchors.any (fun a => a.id == anchorId) = false := by
    rw [List.any_eq_false]
    intro a ha
    simp [h a ha]
  rw [this]

/-- Witness for C7: creating an asset for the non-existent anchor id 99
fails with `NotFound` and the store is untouched. -/
theorem create_asset_not_found_witness :
    createAsset store1 3 99 ⟨"USD"⟩ = (.error .notFound, store1) :=
  create_asset_not_found store1 3 99 ⟨"USD"⟩ (by decide)

/-- C8: `listAssetsForAnchor` returns the successful empty sequence — not
an error — for an existing anchor that owns no assets, and returns
`NotFound` when the anchor identifier is absent from the store. -/
theorem list_assets_empty_not_error (s : Store) (anchorId : Nat) :
    ((∃ a ∈ s.anchors, a.id = anchorId) →
      (∀ x ∈ s.assets, x.anchorId ≠ anchorId) →
      listAssetsForAnchor s anchorId = .ok []) ∧
    ((∀ a ∈ s.anchors, a.id ≠ anchorId) →
      listAssetsForAnchor s anchorId = .error .notFound) := by
  constructor
  · rintro ⟨a, ha, hid⟩ hassets
    unfold listAssetsForAnchor
    rw [if_pos (List.any_eq_true.mpr ⟨a, ha, by simp [hid]⟩)]
    have : s.assets.filter (fun x => x.anchorId == anchorId) = [] := by
      rw [List.filter_eq_nil_iff]
      intro x hx
      simp [hassets x hx]
    rw [this]
  · intro h
    unfold listAssetsForAnchor
    rw [if_neg]
    intro hany
    obtain ⟨a, ha, hp⟩ := List.any_eq_true.mp hany
    exact h a ha (by simpa using hp)

/-- Witness for C8: the one-anchor store with no assets yields `ok []`
for the existing anchor id 1 and `NotFound` for the absent id 99. -/
theorem list_assets_empty_not_error_witness :
    listAssetsForAnchor store1 1 = .ok [] ∧
    listAssetsForAnchor store1 99 = .error .notFound :=
  ⟨(list_assets_empty_not_error store1 1).1 ⟨anchorA, by decide, by decide⟩
      (by intro x hx; simp [store1] at hx),
   (list_assets_empty_not_error store1 99).2 (by decide)⟩

end StellarInsights
